import Mathlib

/-!
Verification of the retry-on-failure job scheduler in
apps/data-processing/src/schedulers/task_scheduler.py.

The scheduler registry is modelled as an association list from job id to
job entry, with the replace-on-id semantics the code requests through
replace_existing=True.  The two callables the code registers are modelled
as a small inductive type: the retryable_job closure produced by
TaskScheduler._add_job, and the staticmethod TaskScheduler._run_async_job.
A fire event runs the entry registered under a given id against an
externally chosen outcome of the wrapped work (success, or an exception
with a message), producing the new registry, the structured log lines
emitted, and the exception escaping the callable, if any.
-/

namespace TaskScheduler

/-- Outcome of one invocation of a wrapped unit of work: the awaited
coroutine either returns normally or raises an exception with a message. -/
inductive WorkOutcome where
  | success : WorkOutcome
  | failure (msg : String) : WorkOutcome
deriving DecidableEq, Repr

/-- Triggers used by the code: IntervalTrigger(minutes=m) for the main
jobs and IntervalTrigger(seconds=s) for retries.  The oneShotDelay
constructor is modelled from the spec: the host library also offers a
one-shot delayed (date) trigger, which the spec claims the retry path
uses; the code under src never constructs it. -/
inductive Trigger where
  | intervalMinutes (m : Nat) : Trigger
  | intervalSeconds (s : Nat) : Trigger
  | oneShotDelay (s : Nat) : Trigger
deriving DecidableEq, Repr

/-- A trigger is one-shot when it fires once and is then spent; the
IntervalTrigger used by the code fires repeatedly at its period. -/
def Trigger.isOneShot : Trigger → Bool
  | .oneShotDelay _ => true
  | .intervalMinutes _ => false
  | .intervalSeconds _ => false

/-- The callable stored in a scheduler entry.  retryable is the closure
built by _add_job: it captures job_id, max_retries, the registration-time
kwargs value of retry_count (kwargs.get with default 0), and the wrapped
coroutine function.  runAsync is _run_async_job with its coro_func
argument and the retry_count kwarg the add_job call attaches; the body of
_run_async_job never reads that kwarg. -/
inductive JobFunc where
  | retryable (jobId : String) (maxRetries : Nat) (capturedRetryCount : Nat)
      (work : String) : JobFunc
  | runAsync (work : String) (retryCount : Nat) : JobFunc
deriving DecidableEq, Repr

/-- One registered schedule: the trigger and the callable. -/
structure JobEntry where
  trigger : Trigger
  func : JobFunc
deriving DecidableEq, Repr

/-- The scheduler job registry, keyed by job id. -/
abbrev Registry := List (String × JobEntry)

/-- scheduler.add_job with replace_existing=True: any existing entry under
the same id is removed and the new entry becomes the binding for that id. -/
def addJob (reg : Registry) (id : String) (e : JobEntry) : Registry :=
  (id, e) :: reg.filter (fun x => x.1 != id)

/-- Structured log lines emitted by the scheduler code, one constructor
per f-string in the source, holding exactly the values the f-string
interpolates:
logger.warning with job_id, retry_count+1 and the exception;
logger.error with job_id and max_retries after exhaustion;
logger.error in _run_async_job with the coroutine name and the exception. -/
inductive LogEntry where
  | warnAttempt (jobId : String) (attempt : Nat) (err : String) : LogEntry
  | errorExhausted (jobId : String) (maxRetries : Nat) : LogEntry
  | errorRun (funcName : String) (err : String) : LogEntry
deriving DecidableEq, Repr

/-- Whether a log line carries the job id as one of its fields.
_run_async_job formats coro_func.__name__ and the exception only; it is
never given the job id. -/
def LogEntry.hasJobIdField : LogEntry → Bool
  | .warnAttempt _ _ _ => true
  | .errorExhausted _ _ => true
  | .errorRun _ _ => false

/-- Whether a log line carries an attempt number as one of its fields. -/
def LogEntry.hasAttemptField : LogEntry → Bool
  | .warnAttempt _ _ _ => true
  | .errorExhausted _ _ => false
  | .errorRun _ _ => false

/-- Whether a log line carries a description of the error.  The terminal
f-string interpolates only job_id and max_retries, not the exception. -/
def LogEntry.hasErrorDesc : LogEntry → Bool
  | .warnAttempt _ _ _ => true
  | .errorExhausted _ _ => false
  | .errorRun _ _ => true

/-- Recognizes the terminal give-up log line. -/
def LogEntry.isExhausted : LogEntry → Bool
  | .errorExhausted _ _ => true
  | _ => false

/-- Recognizes the log line _run_async_job emits on failure. -/
def LogEntry.isRunError : LogEntry → Bool
  | .errorRun _ _ => true
  | _ => false

/-- Result of running one registered callable on one fire: the registry
after any add_job calls it made, the log lines it emitted, and the
exception it let escape, if any. -/
structure RunResult where
  registry : Registry
  logs : List LogEntry
  raised : Option String
deriving DecidableEq, Repr

/-- Body of the retryable_job closure in _add_job.  retry_count is
kwargs.get of the registration-time kwargs with default 0 (the captured
value), the work is awaited, and on an exception the closure logs a
warning and either schedules _run_async_job under the derived id
job_id ++ "_retry_" ++ retry_count with a five-second IntervalTrigger and
kwargs retry_count+1 (replace_existing=True), or, when retry_count has
reached max_retries, logs the terminal error. -/
def runRetryableJob (jobId : String) (maxRetries capturedRetryCount : Nat)
    (work : String) (out : WorkOutcome) (reg : Registry) : RunResult :=
  let retryCount := capturedRetryCount
  match out with
  | .success => ⟨reg, [], none⟩
  | .failure e =>
    if retryCount < maxRetries then
      ⟨addJob reg (jobId ++ "_retry_" ++ toString retryCount)
          ⟨Trigger.intervalSeconds 5, JobFunc.runAsync work (retryCount + 1)⟩,
        [LogEntry.warnAttempt jobId (retryCount + 1) e], none⟩
    else
      ⟨reg, [LogEntry.warnAttempt jobId (retryCount + 1) e,
              LogEntry.errorExhausted jobId maxRetries], none⟩

/-- Body of the staticmethod _run_async_job: awaits the work, and on an
exception logs an error with the coroutine name; it schedules nothing and
lets nothing escape. -/
def runAsyncJob (work : String) (_retryCount : Nat) (out : WorkOutcome)
    (reg : Registry) : RunResult :=
  match out with
  | .success => ⟨reg, [], none⟩
  | .failure e => ⟨reg, [LogEntry.errorRun work e], none⟩

/-- Dispatch of one stored callable. -/
def runFunc (f : JobFunc) (out : WorkOutcome) (reg : Registry) : RunResult :=
  match f with
  | .retryable jobId maxRetries capturedRetryCount work =>
      runRetryableJob jobId maxRetries capturedRetryCount work out reg
  | .runAsync work retryCount => runAsyncJob work retryCount out reg

/-- A fire event for the entry registered under the given id, with the
given outcome of the wrapped work.  A fire for an id with no entry does
nothing; the interval triggers of the code leave the entry in place after
the fire. -/
def fire (reg : Registry) (id : String) (out : WorkOutcome) : RunResult :=
  match reg.find? (fun x => x.1 == id) with
  | none => ⟨reg, [], none⟩
  | some x => runFunc x.2.func out reg

/-- TaskScheduler._add_job: registers the retryable_job closure under the
id job_id ++ "_" ++ priority with an interval trigger in minutes and
replace_existing=True.  kwargsRetryCount models the optional retry_count
entry of the registration-time kwargs. -/
def facadeAddJob (reg : Registry) (work : String) (minutes : Nat)
    (jobId : String) (priority : Nat) (maxRetries : Nat)
    (kwargsRetryCount : Option Nat) : Registry :=
  addJob reg (jobId ++ "_" ++ toString priority)
    ⟨Trigger.intervalMinutes minutes,
      JobFunc.retryable jobId maxRetries (kwargsRetryCount.getD 0) work⟩

/-- TaskScheduler.setup_schedules: the four _add_job calls, with the
defaults priority=5 and max_retries=3 and no extra kwargs.  The work
strings are the names of the processor coroutines passed in. -/
def setupSchedules (reg : Registry) : Registry :=
  facadeAddJob
    (facadeAddJob
      (facadeAddJob
        (facadeAddJob reg "update_prices" 5 "update_prices" 5 3 none)
        "fetch_crypto_news" 30 "fetch_news" 5 3 none)
      "update_portfolio_values" 10 "update_portfolio" 5 3 none)
    "monitor_network_metrics" 5 "monitor_starknet" 5 3 none

/-- The job ids setup_schedules registers. -/
def scheduledJobIds : List String :=
  ["update_prices", "fetch_news", "update_portfolio", "monitor_starknet"]

/-- Folds a sequence of fire events over a registry, keeping only the
registry. -/
def runTrace (reg : Registry) (evs : List (String × WorkOutcome)) : Registry :=
  match evs with
  | [] => reg
  | (id, out) :: rest => runTrace (fire reg id out).registry rest

/-- Folds a sequence of fire events over a registry, collecting the log
lines of every fire in order. -/
def runTraceLogs (reg : Registry) (evs : List (String × WorkOutcome)) :
    Registry × List LogEntry :=
  match evs with
  | [] => (reg, [])
  | (id, out) :: rest =>
    let r := fire reg id out
    let p := runTraceLogs r.registry rest
    (p.1, r.logs ++ p.2)

/-- The closed set of registry entries reachable from the setup state:
the four interval entries setup_schedules registers, and the four retry
entries their failures can register (the captured retry_count of every
interval entry is 0, so the derived retry id always ends in _retry_0 and
the scheduled kwargs always carry retry_count 1). -/
def allowedEntries : Registry :=
  [("update_prices_5",
      ⟨Trigger.intervalMinutes 5, JobFunc.retryable "update_prices" 3 0 "update_prices"⟩),
   ("fetch_news_5",
      ⟨Trigger.intervalMinutes 30, JobFunc.retryable "fetch_news" 3 0 "fetch_crypto_news"⟩),
   ("update_portfolio_5",
      ⟨Trigger.intervalMinutes 10, JobFunc.retryable "update_portfolio" 3 0 "update_portfolio_values"⟩),
   ("monitor_starknet_5",
      ⟨Trigger.intervalMinutes 5, JobFunc.retryable "monitor_starknet" 3 0 "monitor_network_metrics"⟩),
   ("update_prices_retry_0",
      ⟨Trigger.intervalSeconds 5, JobFunc.runAsync "update_prices" 1⟩),
   ("fetch_news_retry_0",
      ⟨Trigger.intervalSeconds 5, JobFunc.runAsync "fetch_crypto_news" 1⟩),
   ("update_portfolio_retry_0",
      ⟨Trigger.intervalSeconds 5, JobFunc.runAsync "update_portfolio_values" 1⟩),
   ("monitor_starknet_retry_0",
      ⟨Trigger.intervalSeconds 5, JobFunc.runAsync "monitor_network_metrics" 1⟩)]

/-- Registry invariant maintained by dispatch from the setup state: every
entry is one of the eight allowed ones and ids are duplicate-free. -/
def Inv (reg : Registry) : Prop :=
  (∀ x ∈ reg, x ∈ allowedEntries) ∧ (reg.map Prod.fst).Nodup

theorem filter_eq_of_filter_ne (reg : Registry) (k : String) :
    (reg.filter (fun x => x.1 != k)).filter (fun x => x.1 == k) = [] := by
  induction reg with
  | nil => rfl
  | cons a l ih =>
    by_cases h : a.1 = k
    · simp [List.filter_cons, h, ih]
    · simp [List.filter_cons, h, ih]

theorem addJob_filter_self_length (reg : Registry) (k : String) (e : JobEntry) :
    ((addJob reg k e).filter (fun x => x.1 == k)).length = 1 := by
  simp [addJob, List.filter_cons, filter_eq_of_filter_ne]

theorem addJob_find_self (reg : Registry) (k : String) (e : JobEntry) :
    (addJob reg k e).find? (fun x => x.1 == k) = some (k, e) := by
  simp [addJob, List.find?_cons_of_pos]

theorem addJob_mem (reg : Registry) (k : String) (e : JobEntry)
    (x : String × JobEntry) (hx : x ∈ addJob reg k e) :
    x = (k, e) ∨ x ∈ reg := by
  simp only [addJob, List.mem_cons, List.mem_filter] at hx
  rcases hx with h | h
  · exact Or.inl h
  · exact Or.inr h.1

theorem addJob_keys_nodup (reg : Registry) (k : String) (e : JobEntry)
    (hnd : (reg.map Prod.fst).Nodup) :
    ((addJob reg k e).map Prod.fst).Nodup := by
  simp only [addJob, List.map_cons, List.nodup_cons]
  constructor
  · intro hmem
    rcases List.mem_map.1 hmem with ⟨x, hx, hk⟩
    rcases List.mem_filter.1 hx with ⟨_, hne⟩
    exact absurd hk (by simpa using hne)
  · exact hnd.sublist ((List.filter_sublist reg).map Prod.fst)

theorem addJob_inv (reg : Registry) (k : String) (e : JobEntry)
    (hinv : Inv reg) (hallowed : (k, e) ∈ allowedEntries) :
    Inv (addJob reg k e) := by
  constructor
  · intro x hx
    rcases addJob_mem reg k e x hx with h | h
    · exact h ▸ hallowed
    · exact hinv.1 x h
  · exact addJob_keys_nodup reg k e hinv.2

theorem inv_setup : Inv (setupSchedules []) := by
  constructor
  · decide
  · decide

theorem fire_inv (reg : Registry) (id : String) (out : WorkOutcome)
    (hinv : Inv reg) : Inv (fire reg id out).registry := by
  unfold fire
  cases hfind : reg.find? (fun x => x.1 == id) with
  | none => exact hinv
  | some x =>
    have hx : x ∈ reg := List.mem_of_find?_eq_some hfind
    have hall : x ∈ allowedEntries := hinv.1 x hx
    simp only [allowedEntries, List.mem_cons, List.not_mem_nil, or_false] at hall
    rcases hall with h | h | h | h | h | h | h | h <;>
      subst h <;>
      cases out <;>
      first
        | exact hinv
        | exact addJob_inv reg _ _ hinv (by decide)

theorem runTrace_inv (evs : List (String × WorkOutcome)) (reg : Registry)
    (hinv : Inv reg) : Inv (runTrace reg evs) := by
  induction evs generalizing reg with
  | nil => exact hinv
  | cons ev rest ih =>
    obtain ⟨id, out⟩ := ev
    exact ih _ (fire_inv reg id out hinv)

theorem length_le_one_of_key_const (l : Registry) (k : String)
    (hnd : (l.map Prod.fst).Nodup) (hall : ∀ x ∈ l, x.1 = k) :
    l.length ≤ 1 := by
  match l with
  | [] => simp
  | [a] => simp
  | a :: b :: t =>
    exfalso
    have ha : a.1 = k := hall a (by simp)
    have hb : b.1 = k := hall b (by simp)
    simp only [List.map_cons, List.nodup_cons] at hnd
    exact hnd.1 (by rw [ha, ← hb]; exact List.mem_cons_self _ _)

/-- C1: with max_retries = 3 and an always-failing work function, after
the first interval fire and four 5-second fires of the scheduled retry
entry, the code has executed the work four times beyond the first failure
(more than max_retries), has emitted no terminal-failure log at all, and
the retry entry is still registered, so further retries keep firing: the
chain is not bounded by max_retries and no terminal log ever appears. -/
theorem failing_job_retries_unbounded :
    ((runTraceLogs (setupSchedules [])
        (("update_prices_5", WorkOutcome.failure "boom")
          :: List.replicate 4 ("update_prices_retry_0", WorkOutcome.failure "boom"))).2.filter
        LogEntry.isExhausted) = [] ∧
    ((runTraceLogs (setupSchedules [])
        (("update_prices_5", WorkOutcome.failure "boom")
          :: List.replicate 4 ("update_prices_retry_0", WorkOutcome.failure "boom"))).2.filter
        LogEntry.isRunError).length = 4 ∧
    ((runTraceLogs (setupSchedules [])
        (("update_prices_5", WorkOutcome.failure "boom")
          :: List.replicate 4 ("update_prices_retry_0", WorkOutcome.failure "boom"))).1.find?
        (fun x => x.1 == "update_prices_retry_0")).isSome = true := by
  decide

/-- C2 counterexample: the schedule created for the retry of update_prices
is registered under update_prices_retry_0 with a recurring five-second
IntervalTrigger, which is not a one-shot trigger. -/
theorem retry_schedule_not_oneshot :
    (runRetryableJob "update_prices" 3 0 "update_prices"
        (WorkOutcome.failure "boom") (setupSchedules [])).registry.find?
        (fun x => x.1 == "update_prices_retry_0")
      = some ("update_prices_retry_0",
          ⟨Trigger.intervalSeconds 5, JobFunc.runAsync "update_prices" 1⟩) ∧
    Trigger.isOneShot (Trigger.intervalSeconds 5) = false := by
  decide

/-- C2 amended: when the work fails with retry_count < max_retries, the
wrapper registers exactly one schedule, a recurring five-second interval
schedule of _run_async_job on the work, carrying retry_count + 1, under
the derived id job_id ++ "_retry_" ++ retry_count (pre-increment), and it
replaces any existing schedule under that id, leaving exactly one entry
with that id bound to the new schedule. -/
theorem retry_scheduling_on_failure (jobId work e : String)
    (maxRetries rc : Nat) (reg : Registry) (h : rc < maxRetries) :
    (runRetryableJob jobId maxRetries rc work (WorkOutcome.failure e) reg).registry
      = addJob reg (jobId ++ "_retry_" ++ toString rc)
          ⟨Trigger.intervalSeconds 5, JobFunc.runAsync work (rc + 1)⟩ ∧
    ((runRetryableJob jobId maxRetries rc work (WorkOutcome.failure e) reg).registry.filter
        (fun x => x.1 == jobId ++ "_retry_" ++ toString rc)).length = 1 ∧
    (runRetryableJob jobId maxRetries rc work (WorkOutcome.failure e) reg).registry.find?
        (fun x => x.1 == jobId ++ "_retry_" ++ toString rc)
      = some (jobId ++ "_retry_" ++ toString rc,
          ⟨Trigger.intervalSeconds 5, JobFunc.runAsync work (rc + 1)⟩) := by
  have hreg : (runRetryableJob jobId maxRetries rc work (WorkOutcome.failure e) reg).registry
      = addJob reg (jobId ++ "_retry_" ++ toString rc)
          ⟨Trigger.intervalSeconds 5, JobFunc.runAsync work (rc + 1)⟩ := by
    simp [runRetryableJob, h]
  refine ⟨hreg, ?_, ?_⟩
  · rw [hreg]; exact addJob_filter_self_length _ _ _
  · rw [hreg]; exact addJob_find_self _ _ _

/-- C2 amended, witness at job update_prices with retry_count 0 and
max_retries 3. -/
theorem retry_scheduling_on_failure_witness :
    (0 : Nat) < 3 ∧
    ((runRetryableJob "update_prices" 3 0 "update_prices"
        (WorkOutcome.failure "boom") (setupSchedules [])).registry
      = addJob (setupSchedules []) ("update_prices" ++ "_retry_" ++ toString (0 : Nat))
          ⟨Trigger.intervalSeconds 5, JobFunc.runAsync "update_prices" 1⟩ ∧
    ((runRetryableJob "update_prices" 3 0 "update_prices"
        (WorkOutcome.failure "boom") (setupSchedules [])).registry.filter
        (fun x => x.1 == "update_prices" ++ "_retry_" ++ toString (0 : Nat))).length = 1 ∧
    (runRetryableJob "update_prices" 3 0 "update_prices"
        (WorkOutcome.failure "boom") (setupSchedules [])).registry.find?
        (fun x => x.1 == "update_prices" ++ "_retry_" ++ toString (0 : Nat))
      = some ("update_prices" ++ "_retry_" ++ toString (0 : Nat),
          ⟨Trigger.intervalSeconds 5, JobFunc.runAsync "update_prices" 1⟩)) :=
  ⟨by decide,
    retry_scheduling_on_failure "update_prices" "update_prices" "boom" 3 0
      (setupSchedules []) (by decide)⟩

/-- C3: an exception raised by the work never escapes: no fire event lets
an exception escape to the dispatch loop, and inside retryable_job a
failure is converted into either the registration of a retry schedule
(when retry_count < max_retries) or the warning plus terminal log pair. -/
theorem work_failures_contained :
    (∀ reg id out, (fire reg id out).raised = none) ∧
    (∀ jobId maxRetries rc work e reg,
      (runRetryableJob jobId maxRetries rc work (WorkOutcome.failure e) reg).raised = none ∧
      if rc < maxRetries then
        (runRetryableJob jobId maxRetries rc work (WorkOutcome.failure e) reg).registry
          = addJob reg (jobId ++ "_retry_" ++ toString rc)
              ⟨Trigger.intervalSeconds 5, JobFunc.runAsync work (rc + 1)⟩
      else
        (runRetryableJob jobId maxRetries rc work (WorkOutcome.failure e) reg).logs
          = [LogEntry.warnAttempt jobId (rc + 1) e,
             LogEntry.errorExhausted jobId maxRetries]) := by
  constructor
  · intro reg id out
    unfold fire
    cases hfind : reg.find? (fun x => x.1 == id) with
    | none => rfl
    | some x =>
      obtain ⟨k2, tr2, f2⟩ := x
      cases f2 with
      | retryable jid mr rc w =>
        cases out with
        | success => rfl
        | failure e =>
          simp only [runFunc, runRetryableJob]
          split <;> rfl
      | runAsync w rc => cases out <;> rfl
  · intro jobId maxRetries rc work e reg
    constructor
    · simp only [runRetryableJob]
      split <;> rfl
    · by_cases h : rc < maxRetries
      · rw [if_pos h]
        simp [runRetryableJob, h]
      · rw [if_neg h]
        simp [runRetryableJob, h]

/-- C4: registering the same job_id twice through _add_job (same priority,
any two intervals, retry settings and kwargs), from any starting registry,
leaves exactly one entry under the derived id job_id ++ "_" ++ priority,
and that entry is the one of the latest registration. -/
theorem reregistration_idempotent (reg : Registry) (w1 w2 : String)
    (m1 m2 : Nat) (jobId : String) (priority mr1 mr2 : Nat)
    (k1 k2 : Option Nat) :
    ((facadeAddJob (facadeAddJob reg w1 m1 jobId priority mr1 k1)
        w2 m2 jobId priority mr2 k2).filter
        (fun x => x.1 == jobId ++ "_" ++ toString priority)).length = 1 ∧
    (facadeAddJob (facadeAddJob reg w1 m1 jobId priority mr1 k1)
        w2 m2 jobId priority mr2 k2).find?
        (fun x => x.1 == jobId ++ "_" ++ toString priority)
      = some (jobId ++ "_" ++ toString priority,
          ⟨Trigger.intervalMinutes m2,
            JobFunc.retryable jobId mr2 (k2.getD 0) w2⟩) :=
  ⟨addJob_filter_self_length _ _ _, addJob_find_self _ _ _⟩

/-- C7: from the setup state, after any sequence of fire events with any
outcomes, each registered job id has at most one pending retry schedule:
at most one registry entry whose id starts with job_id ++ "_retry_". -/
theorem at_most_one_pending_retry (evs : List (String × WorkOutcome))
    (jobId : String) (hj : jobId ∈ scheduledJobIds) :
    ((runTrace (setupSchedules []) evs).filter
        (fun x => (jobId ++ "_retry_").data.isPrefixOf x.1.data)).length ≤ 1 := by
  have hinv : Inv (runTrace (setupSchedules []) evs) :=
    runTrace_inv evs (setupSchedules []) inv_setup
  apply length_le_one_of_key_const _ (jobId ++ "_retry_0")
  · exact hinv.2.sublist
      ((List.filter_sublist (runTrace (setupSchedules []) evs)).map Prod.fst)
  · intro x hx
    rcases List.mem_filter.1 hx with ⟨hmem, hpre⟩
    have hall : x ∈ allowedEntries := hinv.1 x hmem
    have hkey : ∀ y ∈ allowedEntries,
        ((jobId ++ "_retry_").data.isPrefixOf y.1.data) = true →
          y.1 = jobId ++ "_retry_0" := by
      simp only [scheduledJobIds, List.mem_cons, List.not_mem_nil, or_false] at hj
      rcases hj with rfl | rfl | rfl | rfl <;> decide
    exact hkey x hall hpre

/-- C7 witness: update_prices, after an interval failure, an interval
success, and a retry fire that fails again. -/
theorem at_most_one_pending_retry_witness :
    "update_prices" ∈ scheduledJobIds ∧
    ((runTrace (setupSchedules [])
        [("update_prices_5", WorkOutcome.failure "boom"),
         ("update_prices_5", WorkOutcome.success),
         ("update_prices_retry_0", WorkOutcome.failure "again")]).filter
        (fun x => ("update_prices" ++ "_retry_").data.isPrefixOf x.1.data)).length ≤ 1 :=
  ⟨by decide,
    at_most_one_pending_retry
      [("update_prices_5", WorkOutcome.failure "boom"),
       ("update_prices_5", WorkOutcome.success),
       ("update_prices_retry_0", WorkOutcome.failure "again")]
      "update_prices" (by decide)⟩

/-- C8 counterexample: when the pending retry of update_prices fires and
the work fails again, the only log line of that failure is the one of
_run_async_job, which carries the coroutine name and the error but neither
a job_id field nor an attempt number, so this failure is not reported by a
log line containing job_id, attempt number and error description. -/
theorem retry_failure_log_lacks_fields :
    (fire (runRetryableJob "update_prices" 3 0 "update_prices"
        (WorkOutcome.failure "boom") (setupSchedules [])).registry
        "update_prices_retry_0" (WorkOutcome.failure "boom")).logs
      = [LogEntry.errorRun "update_prices" "boom"] ∧
    ((fire (runRetryableJob "update_prices" 3 0 "update_prices"
        (WorkOutcome.failure "boom") (setupSchedules [])).registry
        "update_prices_retry_0" (WorkOutcome.failure "boom")).logs.filter
        (fun l => l.hasJobIdField && l.hasAttemptField && l.hasErrorDesc)) = [] := by
  decide

/-- C8 amended: no failure raises or returns anything to a caller; the
failure log of retryable_job carries job_id, attempt number and error
description; the terminal give-up line carries job_id and max_retries but
no error description; the failure log of _run_async_job carries the
coroutine name and the error but neither a job_id field nor an attempt
number. -/
theorem failure_logging_characterized (jobId work e : String)
    (maxRetries rc : Nat) (reg : Registry) :
    (runRetryableJob jobId maxRetries rc work (WorkOutcome.failure e) reg).raised = none ∧
    (runRetryableJob jobId maxRetries rc work (WorkOutcome.failure e) reg).logs
      = (if rc < maxRetries then [LogEntry.warnAttempt jobId (rc + 1) e]
         else [LogEntry.warnAttempt jobId (rc + 1) e,
               LogEntry.errorExhausted jobId maxRetries]) ∧
    runAsyncJob work rc (WorkOutcome.failure e) reg
      = ⟨reg, [LogEntry.errorRun work e], none⟩ ∧
    (LogEntry.warnAttempt jobId (rc + 1) e).hasJobIdField = true ∧
    (LogEntry.warnAttempt jobId (rc + 1) e).hasAttemptField = true ∧
    (LogEntry.warnAttempt jobId (rc + 1) e).hasErrorDesc = true ∧
    (LogEntry.errorExhausted jobId maxRetries).hasJobIdField = true ∧
    (LogEntry.errorExhausted jobId maxRetries).hasErrorDesc = false ∧
    (LogEntry.errorRun work e).hasJobIdField = false ∧
    (LogEntry.errorRun work e).hasAttemptField = false ∧
    (LogEntry.errorRun work e).hasErrorDesc = true := by
  refine ⟨?_, ?_, rfl, rfl, rfl, rfl, rfl, rfl, rfl, rfl, rfl⟩
  · simp only [runRetryableJob]
    split <;> rfl
  · by_cases h : rc < maxRetries
    · rw [if_pos h]
      simp [runRetryableJob, h]
    · rw [if_neg h]
      simp [runRetryableJob, h]

/-- C9: _run_async_job changes no schedules and lets nothing escape, for
any outcome and any retry_count kwarg; consequently, firing the retry
entry that retryable_job registered on a failure (when retry_count <
max_retries) leaves the registry exactly as it was after the failure and
raises nothing, so a scheduled retry never spawns a further retry. -/
theorem scheduled_retry_never_chains (jobId work e : String)
    (maxRetries rc : Nat) (reg : Registry) (out : WorkOutcome)
    (h : rc < maxRetries) :
    (runAsyncJob work rc out reg).registry = reg ∧
    (runAsyncJob work rc out reg).raised = none ∧
    (fire (runRetryableJob jobId maxRetries rc work (WorkOutcome.failure e) reg).registry
        (jobId ++ "_retry_" ++ toString rc) out).registry
      = (runRetryableJob jobId maxRetries rc work (WorkOutcome.failure e) reg).registry ∧
    (fire (runRetryableJob jobId maxRetries rc work (WorkOutcome.failure e) reg).registry
        (jobId ++ "_retry_" ++ toString rc) out).raised = none := by
  have hreg : (runRetryableJob jobId maxRetries rc work (WorkOutcome.failure e) reg).registry
      = addJob reg (jobId ++ "_retry_" ++ toString rc)
          ⟨Trigger.intervalSeconds 5, JobFunc.runAsync work (rc + 1)⟩ := by
    simp [runRetryableJob, h]
  refine ⟨?_, ?_, ?_, ?_⟩
  · cases out <;> rfl
  · cases out <;> rfl
  · rw [hreg]
    unfold fire
    rw [addJob_find_self]
    cases out <;> rfl
  · rw [hreg]
    unfold fire
    rw [addJob_find_self]
    cases out <;> rfl

/-- C9 witness at update_prices, retry_count 0, max_retries 3, with the
retry fire failing again. -/
theorem scheduled_retry_never_chains_witness :
    (0 : Nat) < 3 ∧
    ((runAsyncJob "update_prices" 0 (WorkOutcome.failure "again")
        (setupSchedules [])).registry = setupSchedules [] ∧
    (runAsyncJob "update_prices" 0 (WorkOutcome.failure "again")
        (setupSchedules [])).raised = none ∧
    (fire (runRetryableJob "update_prices" 3 0 "update_prices"
        (WorkOutcome.failure "boom") (setupSchedules [])).registry
        ("update_prices" ++ "_retry_" ++ toString (0 : Nat))
        (WorkOutcome.failure "again")).registry
      = (runRetryableJob "update_prices" 3 0 "update_prices"
          (WorkOutcome.failure "boom") (setupSchedules [])).registry ∧
    (fire (runRetryableJob "update_prices" 3 0 "update_prices"
        (WorkOutcome.failure "boom") (setupSchedules [])).registry
        ("update_prices" ++ "_retry_" ++ toString (0 : Nat))
        (WorkOutcome.failure "again")).raised = none) :=
  ⟨by decide,
    scheduled_retry_never_chains "update_prices" "update_prices" "boom" 3 0
      (setupSchedules []) (WorkOutcome.failure "again") (by decide)⟩

/-- C10: the four entries setup_schedules registers capture a retry_count
of 0 (no retry_count kwarg is passed at registration, and retryable_job
reads the registration-time kwargs), so every failure of an interval job
logs attempt 1 and registers its retry under the fixed id
job_id ++ "_retry_0". -/
theorem setup_jobs_always_attempt_one (msg : String) :
    ((setupSchedules []).find? (fun x => x.1 == "update_prices_5")
      = some ("update_prices_5",
          ⟨Trigger.intervalMinutes 5, JobFunc.retryable "update_prices" 3 0 "update_prices"⟩) ∧
    (fire (setupSchedules []) "update_prices_5" (WorkOutcome.failure msg)).logs
      = [LogEntry.warnAttempt "update_prices" 1 msg] ∧
    (fire (setupSchedules []) "update_prices_5" (WorkOutcome.failure msg)).registry.find?
        (fun x => x.1 == "update_prices_retry_0")
      = some ("update_prices_retry_0",
          ⟨Trigger.intervalSeconds 5, JobFunc.runAsync "update_prices" 1⟩)) ∧
    ((setupSchedules []).find? (fun x => x.1 == "fetch_news_5")
      = some ("fetch_news_5",
          ⟨Trigger.intervalMinutes 30, JobFunc.retryable "fetch_news" 3 0 "fetch_crypto_news"⟩) ∧
    (fire (setupSchedules []) "fetch_news_5" (WorkOutcome.failure msg)).logs
      = [LogEntry.warnAttempt "fetch_news" 1 msg] ∧
    (fire (setupSchedules []) "fetch_news_5" (WorkOutcome.failure msg)).registry.find?
        (fun x => x.1 == "fetch_news_retry_0")
      = some ("fetch_news_retry_0",
          ⟨Trigger.intervalSeconds 5, JobFunc.runAsync "fetch_crypto_news" 1⟩)) ∧
    ((setupSchedules []).find? (fun x => x.1 == "update_portfolio_5")
      = some ("update_portfolio_5",
          ⟨Trigger.intervalMinutes 10, JobFunc.retryable "update_portfolio" 3 0 "update_portfolio_values"⟩) ∧
    (fire (setupSchedules []) "update_portfolio_5" (WorkOutcome.failure msg)).logs
      = [LogEntry.warnAttempt "update_portfolio" 1 msg] ∧
    (fire (setupSchedules []) "update_portfolio_5" (WorkOutcome.failure msg)).registry.find?
        (fun x => x.1 == "update_portfolio_retry_0")
      = some ("update_portfolio_retry_0",
          ⟨Trigger.intervalSeconds 5, JobFunc.runAsync "update_portfolio_values" 1⟩)) ∧
    ((setupSchedules []).find? (fun x => x.1 == "monitor_starknet_5")
      = some ("monitor_starknet_5",
          ⟨Trigger.intervalMinutes 5, JobFunc.retryable "monitor_starknet" 3 0 "monitor_network_metrics"⟩) ∧
    (fire (setupSchedules []) "monitor_starknet_5" (WorkOutcome.failure msg)).logs
      = [LogEntry.warnAttempt "monitor_starknet" 1 msg] ∧
    (fire (setupSchedules []) "monitor_starknet_5" (WorkOutcome.failure msg)).registry.find?
        (fun x => x.1 == "monitor_starknet_retry_0")
      = some ("monitor_starknet_retry_0",
          ⟨Trigger.intervalSeconds 5, JobFunc.runAsync "monitor_network_metrics" 1⟩)) :=
  ⟨⟨rfl, rfl, rfl⟩, ⟨rfl, rfl, rfl⟩, ⟨rfl, rfl, rfl⟩, ⟨rfl, rfl, rfl⟩⟩

end TaskScheduler
